import Mathlib

/-!
# AutoGarden: gateway relay loop, sensor send-with-retry, irrigation controller

Shallow embedding of the three firmware images of the repository:

* `NRF24-Gateway/src/main.cpp`  (namespace `Gateway`)
* `Sensor/src/main.cpp`         (namespace `Sensor`)
* `WaterSystem/src/main.cpp`    (namespace `WaterSystem`)

Machine integers are natural numbers reduced modulo `2 ^ w` where a value is
stored into a `w`-bit variable.  Global variables become fields of a state
record that is threaded through the functions; calls into the radio driver,
the HTTP client, the web server and the `Ticker` library become entries of an
effect list (or, for the one-shot timer, a field of the state).  Serial
logging is not part of the model.
-/

namespace Gateway

/-! ## Constants and wire format (`NRF24-Gateway/src/main.cpp`, lines 9-42) -/

def NUM_ACKS_TO_SEND : Nat := 100

def DUPLICATE_FILTER_LENGTH : Nat := 10

/-- Enumerators of `enum MeasurementType`, in declaration order. -/
def TEMPERATURE : Nat := 0

def MOISTURE : Nat := 1

def ACK : Nat := 2

/-- The struct `Payload`: four `uint16_t` fields, eight bytes, no padding. -/
structure Payload where
  id : Nat
  type : Nat
  value : Nat
  uuidIsh : Nat
deriving DecidableEq, Repr

/-- Value of `sizeof(Payload)`. -/
def sizeofPayload : Nat := 8

def moistureUrl : String := "http://207.154.239.115/api/moisture"

def temperatureUrl : String := "http://207.154.239.115/api/temperature"

/-- The globals `lastUUIDs` (an array of `DUPLICATE_FILTER_LENGTH` 16-bit
slots) and `currentUUID` (an 8-bit write cursor). -/
structure Filter where
  lastUUIDs : List Nat
  currentUUID : Nat
deriving DecidableEq, Repr

/-- Static storage is zero-initialised: ten zero slots, cursor `0`. -/
def boot : Filter :=
  { lastUUIDs := List.replicate DUPLICATE_FILTER_LENGTH 0, currentUUID := 0 }

/-- The array has its declared size and the cursor indexes into it. -/
def Filter.WF (f : Filter) : Prop :=
  f.lastUUIDs.length = DUPLICATE_FILTER_LENGTH ∧ f.currentUUID < DUPLICATE_FILTER_LENGTH

instance (f : Filter) : Decidable f.WF := by
  unfold Filter.WF; exact inferInstance

/-- What one loop iteration does to the outside world. -/
inductive Effect where
  | radioSend (p : Payload)
  | httpPost (url : String) (body : String)
deriving DecidableEq, Repr

/-- What the radio driver reports to one loop iteration: nothing available,
`recv` failed, or a received frame (`len` is the length of `buf`). -/
inductive Radio where
  | idle
  | recvFailed
  | frame (buf : List Nat)
deriving DecidableEq, Repr

/-! ## Functions -/

/-- One little-endian `uint16_t` read at byte offset `off` of the buffer. -/
def readU16 (buf : List Nat) (off : Nat) : Nat :=
  (buf.getD off 0) % 256 + 256 * ((buf.getD (off + 1) 0) % 256)

/-- The cast `(Payload*)buf`: the four fields at offsets 0, 2, 4, 6. -/
def asPayload (buf : List Nat) : Payload :=
  { id := readU16 buf 0, type := readU16 buf 2, value := readU16 buf 4,
    uuidIsh := readU16 buf 6 }

/-- The body built by `sprintf` in `sendMoistureLevel`. -/
def moistureJson (id level : Nat) : String :=
  "\x7b\"moisture\": " ++ toString level ++ ", \"name\": " ++ toString id ++ "\x7d"

/-- The body built by `sprintf` in `sendTemperature`. -/
def temperatureJson (id temperature : Nat) : String :=
  "\x7b\"temperature\": " ++ toString temperature ++ ", \"name\": \"" ++ toString id
    ++ "\"\x7d"

/-- Function `sendMoistureLevel`: one `http.POST` to the moisture endpoint. -/
def sendMoistureLevel (id level : Nat) : List Effect :=
  [Effect.httpPost moistureUrl (moistureJson id level)]

/-- Function `sendTemperature`: one `http.POST` to the temperature endpoint. -/
def sendTemperature (id temperature : Nat) : List Effect :=
  [Effect.httpPost temperatureUrl (temperatureJson id temperature)]

/-- Function `sendAck`: the local `data` gets `id`, `type` and `value` assigned; its
`uuidIsh` field is never written, so it holds whatever the stack held
(`stackWord`).  The same buffer is sent `NUM_ACKS_TO_SEND` times. -/
def sendAck (id : Nat) (stackWord : Nat) : List Effect :=
  List.replicate NUM_ACKS_TO_SEND
    (Effect.radioSend { id := id, type := ACK, value := 0, uuidIsh := stackWord % 65536 })

/-- Function `isDuplicate`: scan slots `0 .. DUPLICATE_FILTER_LENGTH - 1`, returning
`true` at the first match; without a match store the tag at the cursor and
advance the cursor (the sum is reduced modulo the filter length, then stored
into the 8-bit cursor).  The parameter is a `uint16_t`; the only caller passes
a decoded `uuidIsh` field. -/
def isDuplicate (f : Filter) (uuid : Nat) : Bool × Filter :=
  if (List.range DUPLICATE_FILTER_LENGTH).any (fun i => f.lastUUIDs.getD i 0 == uuid) then
    (true, f)
  else
    (false,
      { lastUUIDs := f.lastUUIDs.set f.currentUUID uuid,
        currentUUID := ((f.currentUUID + 1) % DUPLICATE_FILTER_LENGTH) % 256 })

/-- One iteration of `loop`. -/
def loop (f : Filter) (rx : Radio) (stackWord : Nat) : Filter × List Effect :=
  match rx with
  | Radio.idle => (f, [])
  | Radio.recvFailed => (f, [])
  | Radio.frame buf =>
    if buf.length = sizeofPayload then
      let data := asPayload buf
      let acks := sendAck data.id stackWord
      let r := isDuplicate f data.uuidIsh
      if !r.1 then
        if data.type = MOISTURE then
          (r.2, acks ++ sendMoistureLevel data.id data.value)
        else if data.type = TEMPERATURE then
          (r.2, acks ++ sendTemperature data.id data.value)
        else
          (r.2, acks)
      else
        (r.2, acks)
    else
      (f, [])

/-- Run `loop` over a sequence of radio reports, keeping the final filter. -/
def run (f : Filter) : List (Radio × Nat) → Filter
  | [] => f
  | e :: es => run (loop f e.1 e.2).1 es

/-- Whether an iteration reaches the storing branch of `isDuplicate`. -/
def storesTag (f : Filter) (rx : Radio) : Bool :=
  match rx with
  | Radio.frame buf =>
    decide (buf.length = sizeofPayload) && !(isDuplicate f (asPayload buf).uuidIsh).1
  | _ => false

/-- How many iterations of a run stored a tag in the filter. -/
def stores (f : Filter) : List (Radio × Nat) → Nat
  | [] => 0
  | e :: es => (if storesTag f e.1 then 1 else 0) + stores (loop f e.1 e.2).1 es

/-- The tags carried by the well-sized frames of a run. -/
def carried : List (Radio × Nat) → List Nat
  | [] => []
  | (Radio.frame buf, _) :: es =>
    if buf.length = sizeofPayload then (asPayload buf).uuidIsh :: carried es else carried es
  | _ :: es => carried es

/-- Feed a sequence of tags to `isDuplicate`, keeping the final filter. -/
def feed (f : Filter) : List Nat → Filter
  | [] => f
  | t :: ts => feed (isDuplicate f t).2 ts

/-- The HTTP posts among a list of effects. -/
def posts (es : List Effect) : List Effect :=
  es.filter (fun e => match e with
    | Effect.httpPost _ _ => true
    | _ => false)

end Gateway

namespace Sensor

/-! ## Send with retry (`Sensor/src/main.cpp`, lines 7-12, 38-40, 165-175) -/

def LOG_RETRY_COUNT : Nat := 2

def WAIT_ACK_TIMEOUT : Nat := 100

def NODE_ID : Nat := 7

/-- The struct `Payload` of the sensor image (same layout as the gateway's). -/
structure Payload where
  id : Nat
  type : Nat
  value : Nat
  uuidIsh : Nat
deriving DecidableEq, Repr

/-- Result of `sendData`: the buffers handed to `nrf24.send`, in order, and the
returned flag. -/
structure SendResult where
  sent : List Payload
  gotAck : Bool
deriving DecidableEq, Repr

/-- The `for` loop of `sendData`, entered with counter `i` and flag `gotAck`;
`remaining` is `LOG_RETRY_COUNT - i`.  The loop runs while
`!gotAck && i < LOG_RETRY_COUNT`; each pass sends `*data` and assigns the
outcome of the next `waitForAck` call (`acks i` is the outcome of the call
made in pass `i`). -/
def sendDataLoop (data : Payload) (acks : Nat → Bool) :
    Nat → Nat → Bool → SendResult
  | 0, _, gotAck => { sent := [], gotAck := gotAck }
  | remaining + 1, i, gotAck =>
    if gotAck then
      { sent := [], gotAck := gotAck }
    else
      let rest := sendDataLoop data acks remaining (i + 1) (acks i)
      { sent := data :: rest.sent, gotAck := rest.gotAck }

/-- Function `sendData`: `gotAck` starts `false`, `i` starts at `0`. -/
def sendData (data : Payload) (acks : Nat → Bool) : SendResult :=
  sendDataLoop data acks LOG_RETRY_COUNT 0 false

end Sensor

namespace WaterSystem

/-! ## Irrigation controller (`WaterSystem/src/main.cpp`) -/

def WATER_CHECK_INTERVAL_MS : Nat := 5000

/-- A pending one-shot of the `Ticker` object: the clock value at which
`once_ms` was called and the delay it was given, in milliseconds. -/
structure Pending where
  armedAt : Nat
  delayMs : Nat
deriving DecidableEq, Repr

/-- The globals `isPumpRunning`, `isThereWater`, `lastWaterCheck`, the level
of `PUMP_PIN` (`true` is `HIGH`; the pump is driven active-low) and the
pending one-shot of `ticker`, if any.  `pumpPinWrittenAt` is bookkeeping of
the model: the clock value at the most recent `digitalWrite(PUMP_PIN, ..)`;
no function reads it. -/
structure Controller where
  isPumpRunning : Bool
  isThereWater : Bool
  lastWaterCheck : Nat
  pumpPinHigh : Bool
  ticker : Option Pending
  pumpPinWrittenAt : Nat
deriving DecidableEq, Repr

/-- One call of `server.send(code, "text/plain", body)`. -/
structure Response where
  code : Nat
  body : String
deriving DecidableEq, Repr

def bodySuccess : String := "\x7bsuccess: true\x7d"

def bodyNoWater : String :=
  "\x7bsuccess: false, message: No water detected, fill before using\x7d"

def bodyAlreadyRunning : String :=
  "\x7bsuccess: false, message: Pump is already running\x7d"

def bodyInvalidParams : String := "\x7bsuccess: false, message: Invalid params\x7d"

/-- Function `isWaterDetected`, given the value returned by `analogRead`. -/
def isWaterDetected (waterVoltage : Int) : Bool :=
  if waterVoltage ≥ 512 then true else false

/-- Function `setPumpEnabled`, called at clock value `now`. -/
def setPumpEnabled (s : Controller) (enabled : Bool) (now : Nat) : Controller :=
  { s with
    isPumpRunning := enabled
    pumpPinHigh := if enabled then false else true
    pumpPinWrittenAt := now }

/-- Function `abortWatering`: `ticker.detach()` then `setPumpEnabled(false)`. -/
def abortWatering (s : Controller) (now : Nat) : Controller :=
  setPumpEnabled { s with ticker := none } false now

/-- Function `handlePumpOn`, with `timeout` the value of `server.arg("timeout").toInt()`.
The second `if` is not chained to the first by an `else`, so it runs after the
first whenever the range check passed. -/
def handlePumpOn (s : Controller) (timeout : Int) (now : Nat) :
    Controller × List Response :=
  if timeout > 0 ∧ timeout ≤ 20 then
    let r1 : Controller × List Response :=
      if (!s.isPumpRunning && s.isThereWater) = true then
        ({ setPumpEnabled s true now with
            ticker := some { armedAt := now, delayMs := (timeout * 1000).toNat % 2 ^ 32 } },
          [{ code := 200, body := bodySuccess }])
      else
        (s, [])
    if (!r1.1.isThereWater) = true then
      (r1.1, r1.2 ++ [{ code := 200, body := bodyNoWater }])
    else
      (r1.1, r1.2 ++ [{ code := 200, body := bodyAlreadyRunning }])
  else
    (s, [{ code := 200, body := bodyInvalidParams }])

/-- Function `handlePumpOff`: abort, then answer with the success body. -/
def handlePumpOff (s : Controller) (now : Nat) : Controller × List Response :=
  (abortWatering s now, [{ code := 200, body := bodySuccess }])

/-- The callback armed by `ticker.once_ms(.., setPumpEnabled, false)` runs:
the one-shot is consumed and the pump is switched off.  Without a pending
one-shot nothing runs. -/
def tickerFires (s : Controller) (now : Nat) : Controller :=
  match s.ticker with
  | none => s
  | some _ => setPumpEnabled { s with ticker := none } false now

/-- The body of the periodic check in `loop` (lines 79-84): `analog` is the
value read by `analogRead`, `millisAfter` the value of the closing `millis()`. -/
def waterCheck (s : Controller) (analog : Int) (now : Nat) (millisAfter : Nat) :
    Controller :=
  let s1 := { s with isThereWater := isWaterDetected analog }
  let s2 := if (!s1.isThereWater && s1.isPumpRunning) = true then abortWatering s1 now else s1
  { s2 with lastWaterCheck := millisAfter % 2 ^ 32 }

/-- The request dispatched by `server.handleClient()`, if a client is waiting. -/
inductive Request where
  | root
  | pumpOn (timeout : Int)
  | pumpOff
  | notFound (message : String)
deriving DecidableEq, Repr

/-- Dispatch of `server.handleClient()` with the routes registered in `setup`. -/
def handleClient (s : Controller) (req : Option Request) (now : Nat) :
    Controller × List Response :=
  match req with
  | none => (s, [])
  | some Request.root => (s, [{ code := 200, body := "Watering system!" }])
  | some (Request.pumpOn timeout) => handlePumpOn s timeout now
  | some Request.pumpOff => handlePumpOff s now
  | some (Request.notFound message) => (s, [{ code := 404, body := message }])

/-- What the environment supplies to one iteration of `loop`. -/
structure LoopInput where
  wifiConnected : Bool
  otaStart : Bool
  request : Option Request
  now : Nat
  analog : Int
  millisAfter : Nat
deriving DecidableEq, Repr

/-- One iteration of `loop`.  `ArduinoOTA.handle()` runs the `onStart` callback
(`abortWatering`) when an update begins; `millis()` is the clock modulo
`2 ^ 32`, and so is the sum `lastWaterCheck + WATER_CHECK_INTERVAL_MS`. -/
def loop (s : Controller) (inp : LoopInput) : Controller × List Response :=
  if inp.wifiConnected = false then
    (setPumpEnabled s false inp.now, [])
  else
    let s1 := if inp.otaStart = true then abortWatering s inp.now else s
    let r := handleClient s1 inp.request inp.now
    if (r.1.lastWaterCheck + WATER_CHECK_INTERVAL_MS) % 2 ^ 32 ≤ inp.now % 2 ^ 32 then
      (waterCheck r.1 inp.analog inp.now inp.millisAfter, r.2)
    else
      r

/-- The state `setup` leaves behind: the water flag holds the boot-time
sample, the pump has been switched off, no one-shot is pending. -/
def setup (analog : Int) (now : Nat) : Controller :=
  setPumpEnabled
    { isPumpRunning := false
      isThereWater := isWaterDetected analog
      lastWaterCheck := now % 2 ^ 32
      pumpPinHigh := false
      ticker := none
      pumpPinWrittenAt := 0 }
    false now

/-- The steps that can change the controller state, each taken at a clock
value. -/
inductive Event where
  | pumpOnRequest (timeout : Int) (now : Nat)
  | pumpOffRequest (now : Nat)
  | periodicCheck (analog : Int) (now : Nat) (millisAfter : Nat)
  | timerExpiry (now : Nat)
  | wifiLost (now : Nat)
  | otaStart (now : Nat)
  | loopIteration (inp : LoopInput)
deriving DecidableEq, Repr

/-- The state after one step. -/
def step (s : Controller) : Event → Controller
  | Event.pumpOnRequest timeout now => (handlePumpOn s timeout now).1
  | Event.pumpOffRequest now => (handlePumpOff s now).1
  | Event.periodicCheck analog now millisAfter => waterCheck s analog now millisAfter
  | Event.timerExpiry now => tickerFires s now
  | Event.wifiLost now => setPumpEnabled s false now
  | Event.otaStart now => abortWatering s now
  | Event.loopIteration inp => (loop s inp).1

/-- The state after a sequence of steps. -/
def runEvents (s : Controller) : List Event → Controller
  | [] => s
  | e :: es => runEvents (step s e) es

/-- While the pump runs, the cached water flag is set and the pending
one-shot was armed at the moment the pump pin was driven, with a delay of at
most twenty seconds. -/
def Safe (s : Controller) : Prop :=
  s.isPumpRunning = true →
    s.isThereWater = true ∧
      ∃ d, s.ticker = some { armedAt := s.pumpPinWrittenAt, delayMs := d } ∧ d ≤ 20000

end WaterSystem

/-! # Theorems -/

namespace Gateway

/-! ## The duplicate filter -/

theorem scan_iff_mem (l : List Nat) (t : Nat) (hl : l.length = DUPLICATE_FILTER_LENGTH) :
    (List.range DUPLICATE_FILTER_LENGTH).any (fun i => l.getD i 0 == t) = true ↔ t ∈ l := by
  simp only [List.any_eq_true, List.mem_range, beq_iff_eq]
  constructor
  · rintro ⟨i, hi, h⟩
    have hi2 : i < l.length := by omega
    rw [List.getD_eq_getElem l 0 hi2] at h
    exact h ▸ List.getElem_mem hi2
  · intro h
    obtain ⟨i, hi, h2⟩ := List.mem_iff_getElem.mp h
    exact ⟨i, by omega, by rw [List.getD_eq_getElem l 0 hi]; exact h2⟩

theorem isDuplicate_of_mem (f : Filter) (t : Nat)
    (hl : f.lastUUIDs.length = DUPLICATE_FILTER_LENGTH) (h : t ∈ f.lastUUIDs) :
    isDuplicate f t = (true, f) := by
  unfold isDuplicate
  rw [if_pos ((scan_iff_mem _ _ hl).mpr h)]

theorem isDuplicate_of_not_mem (f : Filter) (t : Nat) (hf : f.WF) (h : t ∉ f.lastUUIDs) :
    isDuplicate f t =
      (false, { lastUUIDs := f.lastUUIDs.set f.currentUUID t,
                currentUUID := (f.currentUUID + 1) % DUPLICATE_FILTER_LENGTH }) := by
  unfold isDuplicate
  rw [if_neg (fun hs => h ((scan_iff_mem _ _ hf.1).mp hs))]
  have : (f.currentUUID + 1) % DUPLICATE_FILTER_LENGTH % 256
      = (f.currentUUID + 1) % DUPLICATE_FILTER_LENGTH := by
    unfold DUPLICATE_FILTER_LENGTH; omega
  rw [this]

theorem isDuplicate_wf (f : Filter) (t : Nat) (hf : f.WF) : (isDuplicate f t).2.WF := by
  by_cases h : t ∈ f.lastUUIDs
  · rw [isDuplicate_of_mem f t hf.1 h]; exact hf
  · rw [isDuplicate_of_not_mem f t hf h]
    refine ⟨by simpa using hf.1, ?_⟩
    show (f.currentUUID + 1) % DUPLICATE_FILTER_LENGTH < DUPLICATE_FILTER_LENGTH
    unfold DUPLICATE_FILTER_LENGTH; omega

/-- C4: on a filter of ten slots with cursor `c < 10`, `isDuplicate t` returns
`true` exactly when some slot equals `t`; a `true` result leaves slots and
cursor as they were; a `false` result puts `t` in slot `c`, keeps every other
slot and the number of slots, and moves the cursor to `(c + 1) % 10`. -/
theorem isDuplicate_spec (f : Filter) (t : Nat)
    (hlen : f.lastUUIDs.length = 10) (hcur : f.currentUUID < 10) :
    ((isDuplicate f t).1 = true ↔ ∃ i, i < 10 ∧ f.lastUUIDs[i]? = some t) ∧
    ((isDuplicate f t).1 = true → (isDuplicate f t).2 = f) ∧
    ((isDuplicate f t).1 = false →
      (isDuplicate f t).2.lastUUIDs[f.currentUUID]? = some t ∧
      (∀ i, i ≠ f.currentUUID → (isDuplicate f t).2.lastUUIDs[i]? = f.lastUUIDs[i]?) ∧
      (isDuplicate f t).2.lastUUIDs.length = 10 ∧
      (isDuplicate f t).2.currentUUID = (f.currentUUID + 1) % 10) := by
  have hf : f.WF := ⟨hlen, hcur⟩
  have hmem : t ∈ f.lastUUIDs ↔ ∃ i, i < 10 ∧ f.lastUUIDs[i]? = some t := by
    rw [List.mem_iff_getElem?]
    constructor
    · rintro ⟨i, hi⟩
      refine ⟨i, ?_, hi⟩
      have := (List.getElem?_eq_some_iff.mp hi).1
      omega
    · rintro ⟨i, _, hi⟩
      exact ⟨i, hi⟩
  by_cases h : t ∈ f.lastUUIDs
  · rw [isDuplicate_of_mem f t hlen h]
    exact ⟨⟨fun _ => hmem.mp h, fun _ => rfl⟩, fun _ => rfl, fun hh => by simp at hh⟩
  · rw [isDuplicate_of_not_mem f t hf h]
    refine ⟨⟨fun hh => by simp at hh, fun hh => absurd (hmem.mpr hh) h⟩,
      fun hh => by simp at hh, fun _ => ⟨?_, ?_, ?_, rfl⟩⟩
    · simp [List.getElem?_set, hlen, hcur]
    · intro i hi
      simp [List.getElem?_set, Ne.symm hi]
    · simpa using hlen

/-- Witness for `isDuplicate_spec`: the boot filter and tag `5`. -/
theorem isDuplicate_spec_witness :
    ((isDuplicate boot 5).1 = true ↔ ∃ i, i < 10 ∧ boot.lastUUIDs[i]? = some 5) ∧
    ((isDuplicate boot 5).1 = true → (isDuplicate boot 5).2 = boot) ∧
    ((isDuplicate boot 5).1 = false →
      (isDuplicate boot 5).2.lastUUIDs[boot.currentUUID]? = some 5 ∧
      (∀ i, i ≠ boot.currentUUID →
        (isDuplicate boot 5).2.lastUUIDs[i]? = boot.lastUUIDs[i]?) ∧
      (isDuplicate boot 5).2.lastUUIDs.length = 10 ∧
      (isDuplicate boot 5).2.currentUUID = (boot.currentUUID + 1) % 10) :=
  isDuplicate_spec boot 5 (by decide) (by decide)

/-! ## The relay loop -/

theorem loop_frame_bad_length (f : Filter) (buf : List Nat) (w : Nat)
    (hlen : buf.length ≠ sizeofPayload) : loop f (Radio.frame buf) w = (f, []) := by
  simp [loop, hlen]

/-- C3: a received frame whose length differs from `sizeof(Payload)` makes the
iteration send no radio frame and no HTTP request and leaves slots and cursor
untouched, whatever bytes the frame holds. -/
theorem loop_length_mismatch (f : Filter) (buf : List Nat) (stackWord : Nat)
    (hlen : buf.length ≠ sizeofPayload) :
    loop f (Radio.frame buf) stackWord = (f, []) := by
  simp [loop, hlen]

/-- Witness for `loop_length_mismatch`: a three-byte frame at boot. -/
theorem loop_length_mismatch_witness :
    [7, 0, 1].length ≠ sizeofPayload ∧ loop boot (Radio.frame [7, 0, 1]) 0 = (boot, []) :=
  ⟨by decide, loop_length_mismatch boot [7, 0, 1] 0 (by decide)⟩

theorem loop_frame_dup (f : Filter) (buf : List Nat) (w : Nat)
    (hlen : buf.length = sizeofPayload)
    (hl : f.lastUUIDs.length = DUPLICATE_FILTER_LENGTH)
    (h : (asPayload buf).uuidIsh ∈ f.lastUUIDs) :
    loop f (Radio.frame buf) w = (f, sendAck (asPayload buf).id w) := by
  simp [loop, hlen, isDuplicate_of_mem f _ hl h]

theorem loop_fst (f : Filter) (rx : Radio) (w : Nat) :
    (loop f rx w).1 =
      match rx with
      | Radio.frame buf =>
        if buf.length = sizeofPayload then (isDuplicate f (asPayload buf).uuidIsh).2 else f
      | _ => f := by
  cases rx with
  | idle => rfl
  | recvFailed => rfl
  | frame buf =>
    simp only [loop]
    split_ifs <;> rfl

theorem loop_wf (f : Filter) (rx : Radio) (w : Nat) (hf : f.WF) : (loop f rx w).1.WF := by
  rw [loop_fst]
  cases rx with
  | idle => exact hf
  | recvFailed => exact hf
  | frame buf =>
    simp only
    split_ifs
    · exact isDuplicate_wf f _ hf
    · exact hf

theorem run_wf (es : List (Radio × Nat)) : ∀ f : Filter, f.WF → (run f es).WF := by
  induction es with
  | nil => intro f hf; exact hf
  | cons e es ih => intro f hf; exact ih _ (loop_wf f e.1 e.2 hf)

/-- A tag sitting in slot `c` stays there while fewer than ten stores happen
after the store that put it there (`k` counts the stores made since). -/
theorem slot_survives (t c : Nat) (es : List (Radio × Nat)) :
    ∀ (f : Filter) (k : Nat), f.WF → f.lastUUIDs[c]? = some t →
      f.currentUUID = (c + 1 + k) % 10 → k + stores f es < 10 →
      (run f es).lastUUIDs[c]? = some t := by
  induction es with
  | nil => intro f k _ hs _ _; exact hs
  | cons e es ih =>
    intro f k hf hs hk hst
    simp only [stores] at hst
    simp only [run]
    obtain ⟨rx, w⟩ := e
    have hwf := loop_wf f rx w hf
    cases rx with
    | idle =>
      simp only [storesTag, Bool.false_eq_true, if_false, Nat.zero_add] at hst
      exact ih _ k hwf (by simpa [loop] using hs) (by simpa [loop] using hk) hst
    | recvFailed =>
      simp only [storesTag, Bool.false_eq_true, if_false, Nat.zero_add] at hst
      exact ih _ k hwf (by simpa [loop] using hs) (by simpa [loop] using hk) hst
    | frame buf =>
      by_cases hlen : buf.length = sizeofPayload
      · by_cases hm : (asPayload buf).uuidIsh ∈ f.lastUUIDs
        · have hd := isDuplicate_of_mem f _ hf.1 hm
          have hl : loop f (Radio.frame buf) w = (f, sendAck (asPayload buf).id w) :=
            loop_frame_dup f buf w hlen hf.1 hm
          simp only [storesTag, hd, hlen, decide_True, Bool.not_true, Bool.and_false,
            Bool.false_eq_true, if_false, Nat.zero_add] at hst
          rw [hl] at hst hwf ⊢
          exact ih _ k hwf hs hk hst
        · have hd := isDuplicate_of_not_mem f _ hf hm
          have hfst := loop_fst f (Radio.frame buf) w
          simp only [hlen, if_true, hd] at hfst
          simp only [storesTag, hd, hlen, decide_True, Bool.not_false, Bool.and_true,
            if_true] at hst
          rw [hfst] at hst hwf ⊢
          refine ih _ (k + 1) hwf ?_ ?_ (by omega)
          · have hne : f.currentUUID ≠ c := by omega
            simp only [List.getElem?_set, hne, if_false]
            exact hs
          · show (f.currentUUID + 1) % DUPLICATE_FILTER_LENGTH = (c + 1 + (k + 1)) % 10
            unfold DUPLICATE_FILTER_LENGTH
            omega
      · have hl : loop f (Radio.frame buf) w = (f, []) := loop_frame_bad_length f buf w hlen
        simp only [storesTag, hlen, decide_False, Bool.false_and, Bool.false_eq_true,
          if_false, Nat.zero_add] at hst
        rw [hl] at hst hwf ⊢
        exact ih _ k hwf hs hk hst

/-- C2: after an iteration stored the tag of a well-sized frame (its
`isDuplicate` call returned `false`), an iteration that receives the same
frame again, with fewer than ten stores in between, sends the burst of one
hundred ACK frames carrying the sender's id and makes no HTTP request. -/
theorem loop_repeat_acks_without_post (f : Filter) (hf : f.WF) (buf : List Nat)
    (w1 w2 : Nat) (between : List (Radio × Nat))
    (hlen : buf.length = sizeofPayload)
    (hnew : (isDuplicate f (asPayload buf).uuidIsh).1 = false)
    (hwin : stores (loop f (Radio.frame buf) w1).1 between < DUPLICATE_FILTER_LENGTH) :
    (loop (run (loop f (Radio.frame buf) w1).1 between) (Radio.frame buf) w2).2
      = List.replicate 100
          (Effect.radioSend
            { id := (asPayload buf).id, type := ACK, value := 0, uuidIsh := w2 % 65536 })
    ∧ posts (loop (run (loop f (Radio.frame buf) w1).1 between) (Radio.frame buf) w2).2
      = [] := by
  have hm : (asPayload buf).uuidIsh ∉ f.lastUUIDs := by
    intro h
    rw [isDuplicate_of_mem f _ hf.1 h] at hnew
    simp at hnew
  have hd := isDuplicate_of_not_mem f _ hf hm
  have hfst := loop_fst f (Radio.frame buf) w1
  simp only [hlen, if_true, hd] at hfst
  have hwf1 := loop_wf f (Radio.frame buf) w1 hf
  have hc : f.currentUUID < 10 := hf.2
  have hl10 : f.lastUUIDs.length = 10 := hf.1
  have hslot := slot_survives (asPayload buf).uuidIsh f.currentUUID between
    (loop f (Radio.frame buf) w1).1 0 hwf1
    (by rw [hfst]; simp [List.getElem?_set, hl10, hc])
    (by rw [hfst]; show (f.currentUUID + 1) % DUPLICATE_FILTER_LENGTH = _
        unfold DUPLICATE_FILTER_LENGTH; omega)
    (by unfold DUPLICATE_FILTER_LENGTH at hwin; omega)
  have hwf2 := run_wf between _ hwf1
  have hmem : (asPayload buf).uuidIsh ∈
      (run (loop f (Radio.frame buf) w1).1 between).lastUUIDs :=
    List.mem_iff_getElem?.mpr ⟨_, hslot⟩
  rw [loop_frame_dup _ buf w2 hlen hwf2.1 hmem]
  refine ⟨rfl, ?_⟩
  simp [posts, sendAck, List.filter_replicate]

/-- Witness for `loop_repeat_acks_without_post`: node 7 sends a moisture
reading tagged `5` to a freshly booted gateway, a reading tagged `9` follows,
then the first frame arrives again. -/
theorem loop_repeat_acks_without_post_witness :
    (loop (run (loop boot (Radio.frame [7, 0, 1, 0, 212, 2, 5, 0]) 0).1
        [(Radio.frame [7, 0, 1, 0, 100, 0, 9, 0], 0)])
      (Radio.frame [7, 0, 1, 0, 212, 2, 5, 0]) 3).2
      = List.replicate 100
          (Effect.radioSend
            { id := (asPayload [7, 0, 1, 0, 212, 2, 5, 0]).id, type := ACK, value := 0,
              uuidIsh := 3 % 65536 })
    ∧ posts (loop (run (loop boot (Radio.frame [7, 0, 1, 0, 212, 2, 5, 0]) 0).1
        [(Radio.frame [7, 0, 1, 0, 100, 0, 9, 0], 0)])
      (Radio.frame [7, 0, 1, 0, 212, 2, 5, 0]) 3).2 = [] :=
  loop_repeat_acks_without_post boot (by decide) [7, 0, 1, 0, 212, 2, 5, 0] 0 3
    [(Radio.frame [7, 0, 1, 0, 100, 0, 9, 0], 0)] (by decide) (by decide) (by decide)

/-! ## Tags that were never received -/

theorem boot_wf : boot.WF := by decide

theorem run_slots_subset (es : List (Radio × Nat)) :
    ∀ f : Filter, f.WF → ∀ x ∈ (run f es).lastUUIDs, x ∈ f.lastUUIDs ∨ x ∈ carried es := by
  induction es with
  | nil => intro f _ x hx; exact Or.inl hx
  | cons e es ih =>
    intro f hf x hx
    obtain ⟨rx, w⟩ := e
    simp only [run] at hx
    have hwf := loop_wf f rx w hf
    have h := ih _ hwf x hx
    rw [loop_fst] at h
    cases rx with
    | idle => simpa [carried] using h
    | recvFailed => simpa [carried] using h
    | frame buf =>
      simp only at h
      by_cases hlen : buf.length = sizeofPayload
      · simp only [hlen, if_true] at h
        simp only [carried, hlen, if_true, List.mem_cons]
        rcases h with h | h
        · by_cases hm : (asPayload buf).uuidIsh ∈ f.lastUUIDs
          · rw [isDuplicate_of_mem f _ hf.1 hm] at h
            exact Or.inl h
          · rw [isDuplicate_of_not_mem f _ hf hm] at h
            rcases List.mem_or_eq_of_mem_set h with h | h
            · exact Or.inl h
            · exact Or.inr (Or.inl h)
        · exact Or.inr (Or.inr h)
      · simp only [hlen, if_false] at h
        simpa [carried, hlen] using h

/-- Away from tag `0` the relay loop behaves as the specification says: in any
state reached from boot, a well-sized MOISTURE frame whose tag is not zero and
was carried by no earlier frame yields the burst of one hundred ACK frames
followed by one POST to the moisture endpoint with the frame's id and value. -/
theorem loop_fresh_nonzero_moisture (es : List (Radio × Nat)) (buf : List Nat) (w : Nat)
    (hlen : buf.length = sizeofPayload) (htype : (asPayload buf).type = MOISTURE)
    (hnz : (asPayload buf).uuidIsh ≠ 0) (hfresh : (asPayload buf).uuidIsh ∉ carried es) :
    (loop (run boot es) (Radio.frame buf) w).2
      = List.replicate 100
          (Effect.radioSend
            { id := (asPayload buf).id, type := ACK, value := 0, uuidIsh := w % 65536 })
        ++ [Effect.httpPost moistureUrl
              (moistureJson (asPayload buf).id (asPayload buf).value)] := by
  have hwf := run_wf es boot boot_wf
  have hm : (asPayload buf).uuidIsh ∉ (run boot es).lastUUIDs := by
    intro h
    rcases run_slots_subset es boot boot_wf _ h with h | h
    · exact hnz (List.eq_of_mem_replicate h)
    · exact hfresh h
  simp only [loop, hlen, if_true, isDuplicate_of_not_mem _ _ hwf hm, Bool.not_false, htype]
  rfl

/-- Witness for `loop_fresh_nonzero_moisture`: the first frame after boot,
tagged `5`. -/
theorem loop_fresh_nonzero_moisture_witness :
    (loop (run boot []) (Radio.frame [7, 0, 1, 0, 212, 2, 5, 0]) 0).2
      = List.replicate 100
          (Effect.radioSend
            { id := (asPayload [7, 0, 1, 0, 212, 2, 5, 0]).id, type := ACK, value := 0,
              uuidIsh := 0 % 65536 })
        ++ [Effect.httpPost moistureUrl
              (moistureJson (asPayload [7, 0, 1, 0, 212, 2, 5, 0]).id
                (asPayload [7, 0, 1, 0, 212, 2, 5, 0]).value)] :=
  loop_fresh_nonzero_moisture [] [7, 0, 1, 0, 212, 2, 5, 0] 0 (by decide) (by decide)
    (by decide) (by decide)

/-- C1, at the failing input: the first frame a freshly booted gateway
receives is a MOISTURE reading (node 7, value 724) tagged `0`.  No earlier
payload carried that tag, yet the iteration sends the hundred ACK frames,
makes no HTTP request and stores nothing: the zero-filled slots make
`isDuplicate 0` answer `true`. -/
theorem loop_boot_zero_tag_not_forwarded :
    (asPayload [7, 0, 1, 0, 212, 2, 0, 0]
        = { id := 7, type := MOISTURE, value := 724, uuidIsh := 0 }) ∧
      (isDuplicate boot 0).1 = true ∧
      loop boot (Radio.frame [7, 0, 1, 0, 212, 2, 0, 0]) 0
        = (boot,
            List.replicate 100
              (Effect.radioSend { id := 7, type := ACK, value := 0, uuidIsh := 0 })) ∧
      posts (loop boot (Radio.frame [7, 0, 1, 0, 212, 2, 0, 0]) 0).2 = [] := by
  refine ⟨by decide, by decide, by decide, by decide⟩

/-! ## Eviction -/

theorem feed_append (ts us : List Nat) : ∀ f : Filter,
    feed f (ts ++ us) = feed (feed f ts) us := by
  induction ts with
  | nil => intro f; rfl
  | cons t ts ih => intro f; exact ih _

/-- Storing fresh non-zero tags into a filter whose unwritten slots are still
zero fills the slots in order. -/
theorem feed_fresh (ts : List Nat) : ∀ pre : List Nat,
    pre.length + ts.length ≤ 10 → (pre ++ ts).Nodup → (∀ x ∈ ts, x ≠ 0) →
    feed { lastUUIDs := pre ++ List.replicate (10 - pre.length) 0,
           currentUUID := pre.length % 10 } ts
      = { lastUUIDs := pre ++ ts ++ List.replicate (10 - pre.length - ts.length) 0,
          currentUUID := (pre.length + ts.length) % 10 } := by
  induction ts with
  | nil => intro pre _ _ _; simp [feed]
  | cons t ts ih =>
    intro pre hlen hnd hnz
    simp only [List.length_cons] at hlen
    obtain ⟨n, hn⟩ : ∃ n, 10 - pre.length = n + 1 := ⟨9 - pre.length, by omega⟩
    have hcur : pre.length % 10 = pre.length := by omega
    have htp : t ∉ pre := by
      intro h
      have := List.nodup_append.mp hnd
      exact this.2.2 h (List.mem_cons_self _ _)
    have ht0 : t ≠ 0 := hnz t (List.mem_cons_self _ _)
    have hwf : (Filter.mk (pre ++ List.replicate (10 - pre.length) 0)
        (pre.length % 10)).WF := by
      constructor
      · show (pre ++ List.replicate (10 - pre.length) 0).length = DUPLICATE_FILTER_LENGTH
        simp only [List.length_append, List.length_replicate, DUPLICATE_FILTER_LENGTH]
        omega
      · show pre.length % 10 < DUPLICATE_FILTER_LENGTH
        unfold DUPLICATE_FILTER_LENGTH; omega
    have hm : t ∉ pre ++ List.replicate (10 - pre.length) 0 := by
      simp only [List.mem_append, List.mem_replicate, not_or, not_and]
      exact ⟨htp, fun _ h => ht0 h⟩
    have hstep := isDuplicate_of_not_mem _ t hwf hm
    simp only [feed, hstep]
    have hset : (pre ++ List.replicate (10 - pre.length) 0).set (pre.length % 10) t
        = (pre ++ [t]) ++ List.replicate (10 - (pre ++ [t]).length) 0 := by
      have h2 : 10 - (pre ++ [t]).length = n := by
        simp only [List.length_append, List.length_singleton]; omega
      rw [hcur, hn, h2, List.replicate_succ]
      simp [List.set_append]
    have hcur2 : (pre.length % 10 + 1) % DUPLICATE_FILTER_LENGTH
        = (pre ++ [t]).length % 10 := by
      simp only [List.length_append, List.length_singleton, DUPLICATE_FILTER_LENGTH]
      omega
    rw [hset, hcur2]
    have := ih (pre ++ [t])
      (by simp only [List.length_append, List.length_singleton]; omega)
      (by simpa using hnd)
      (fun x hx => hnz x (List.mem_cons_of_mem _ hx))
    rw [this]
    have e1 : (pre ++ [t]).length = pre.length + 1 := by simp
    have e2 : 10 - (pre.length + 1) - ts.length = 10 - pre.length - (ts.length + 1) := by
      omega
    have e3 : pre.length + 1 + ts.length = pre.length + (ts.length + 1) := by omega
    simp only [e1, e2, e3, List.length_cons, List.append_assoc, List.singleton_append]

/-- As long as `0` is not among them, eleven pairwise distinct tags fed to the
boot filter evict the first one: a further `isDuplicate` call on it returns
`false`. -/
theorem feed_eleven_nonzero_evicts_first (t1 : Nat) (rest : List Nat)
    (hlen : rest.length = 10) (hnd : (t1 :: rest).Nodup) (hnz : ∀ x ∈ t1 :: rest, x ≠ 0) :
    (isDuplicate (feed boot (t1 :: rest)) t1).1 = false := by
  have hne : rest ≠ [] := by
    intro h; rw [h] at hlen; simp at hlen
  obtain ⟨mid, t11, rfl⟩ : ∃ mid t11, rest = mid ++ [t11] :=
    ⟨rest.dropLast, rest.getLast hne, (List.dropLast_append_getLast hne).symm⟩
  have hmid : mid.length = 9 := by
    simp only [List.length_append, List.length_singleton] at hlen; omega
  have hsplit : t1 :: (mid ++ [t11]) = (t1 :: mid) ++ [t11] := rfl
  rw [hsplit] at hnd hnz ⊢
  rw [feed_append]
  have hnd10 : (t1 :: mid).Nodup := (List.nodup_append.mp hnd).1
  have h10 := feed_fresh (t1 :: mid) [] (by simp [hmid]) (by simpa using hnd10)
    (fun x hx => hnz x (List.mem_append_left _ hx))
  have hboot : boot = Filter.mk (([] : List Nat) ++ List.replicate (10 - 0) 0) (0 % 10) :=
    rfl
  rw [hboot]
  simp only [List.length_nil] at h10
  rw [h10]
  simp only [List.nil_append, List.length_cons, hmid, Nat.zero_add, Nat.reduceAdd,
    Nat.sub_self, Nat.reduceSub, List.replicate_zero, List.append_nil, Nat.reduceMod]
  have h11 : t11 ∉ t1 :: mid := by
    intro h
    exact (List.nodup_append.mp hnd).2.2 h (List.mem_singleton_self _)
  have hwf : (Filter.mk (t1 :: mid) 0).WF :=
    ⟨by show (t1 :: mid).length = DUPLICATE_FILTER_LENGTH
        simp [hmid, DUPLICATE_FILTER_LENGTH],
     by show 0 < DUPLICATE_FILTER_LENGTH
        decide⟩
  simp only [feed, isDuplicate_of_not_mem _ t11 hwf h11, List.set_cons_zero]
  have hwf2 : (Filter.mk (t11 :: mid) ((0 + 1) % DUPLICATE_FILTER_LENGTH)).WF :=
    ⟨by show (t11 :: mid).length = DUPLICATE_FILTER_LENGTH
        simp [hmid, DUPLICATE_FILTER_LENGTH],
     by show (0 + 1) % DUPLICATE_FILTER_LENGTH < DUPLICATE_FILTER_LENGTH
        decide⟩
  have h1 : t1 ∉ t11 :: mid := by
    intro h
    rcases List.mem_cons.mp h with h | h
    · exact h11 (h ▸ List.mem_cons_self _ _)
    · exact (List.nodup_cons.mp hnd10).1 h
  rw [isDuplicate_of_not_mem _ t1 hwf2 h1]

/-- Witness for `feed_eleven_nonzero_evicts_first`: the tags `1, 2, .., 11`. -/
theorem feed_eleven_nonzero_evicts_first_witness :
    (isDuplicate (feed boot (1 :: [2, 3, 4, 5, 6, 7, 8, 9, 10, 11])) 1).1 = false :=
  feed_eleven_nonzero_evicts_first 1 [2, 3, 4, 5, 6, 7, 8, 9, 10, 11] (by decide)
    (by decide) (by decide)

/-- C5, at the failing input: the eleven pairwise distinct tags
`1, 0, 2, 3, .., 10` are fed to the boot filter.  The tag `0` is reported as a
duplicate of the zero-filled slots and is not stored, so only ten tags are
written, slot `0` still holds the first tag and a further `isDuplicate 1`
returns `true`. -/
theorem feed_with_zero_keeps_first :
    [1, 0, 2, 3, 4, 5, 6, 7, 8, 9, 10].Nodup ∧
      [1, 0, 2, 3, 4, 5, 6, 7, 8, 9, 10].length = 11 ∧
      feed boot [1, 0, 2, 3, 4, 5, 6, 7, 8, 9, 10]
        = { lastUUIDs := [1, 2, 3, 4, 5, 6, 7, 8, 9, 10], currentUUID := 0 } ∧
      (isDuplicate (feed boot [1, 0, 2, 3, 4, 5, 6, 7, 8, 9, 10]) 1).1 = true := by
  refine ⟨by decide, by decide, by decide, by decide⟩

end Gateway

namespace Sensor

/-- C6: whatever the payload and whatever the outcomes of the successive
`waitForAck` calls, `sendData` hands the unchanged payload to the radio once
when the first wait is acknowledged and twice otherwise, never more than
`LOG_RETRY_COUNT = 2` times, and returns `true` exactly when the wait after its
last transmission was acknowledged. -/
theorem sendData_spec (data : Payload) (acks : Nat → Bool) :
    (sendData data acks).sent = (if acks 0 = true then [data] else [data, data]) ∧
    (sendData data acks).sent.length ≤ 2 ∧
    ((sendData data acks).gotAck = true ↔
      acks ((sendData data acks).sent.length - 1) = true) := by
  cases h0 : acks 0 <;> cases h1 : acks 1 <;>
    simp [sendData, sendDataLoop, LOG_RETRY_COUNT, h0, h1]

end Sensor

namespace WaterSystem

/-! ## The pump-on handler -/

theorem handlePumpOn_state (s : Controller) (timeout : Int) (now : Nat) :
    (handlePumpOn s timeout now).1 =
      (if 0 < timeout ∧ timeout ≤ 20 ∧ s.isPumpRunning = false ∧ s.isThereWater = true then
        { s with
          isPumpRunning := true
          pumpPinHigh := false
          pumpPinWrittenAt := now
          ticker := some { armedAt := now, delayMs := (timeout * 1000).toNat } }
      else s) := by
  by_cases hr : 0 < timeout ∧ timeout ≤ 20
  · have hlt : timeout * 1000 < 4294967296 := by omega
    cases hp : s.isPumpRunning <;> cases hw : s.isThereWater <;>
      simp [handlePumpOn, setPumpEnabled, hr, hp, hw, hlt]
  · have hr2 : ¬ (timeout > 0 ∧ timeout ≤ 20) := hr
    have hr3 : ¬ (0 < timeout ∧ timeout ≤ 20 ∧ s.isPumpRunning = false ∧
        s.isThereWater = true) := fun h => hr ⟨h.1, h.2.1⟩
    simp only [handlePumpOn, if_neg hr2, if_neg hr3]

/-- Every request that starts the pump is answered twice, first with the
success body and then with the already-running body; every other request is
answered once. -/
theorem handlePumpOn_responses (s : Controller) (timeout : Int) (now : Nat) :
    (handlePumpOn s timeout now).2 =
      (if 0 < timeout ∧ timeout ≤ 20 ∧ s.isPumpRunning = false ∧ s.isThereWater = true then
        [{ code := 200, body := bodySuccess }, { code := 200, body := bodyAlreadyRunning }]
      else
        [{ code := 200,
           body := if ¬ (0 < timeout ∧ timeout ≤ 20) then bodyInvalidParams
                   else if s.isThereWater = false then bodyNoWater
                   else bodyAlreadyRunning }]) := by
  by_cases hr : 0 < timeout ∧ timeout ≤ 20
  · cases hp : s.isPumpRunning <;> cases hw : s.isThereWater <;>
      simp [handlePumpOn, setPumpEnabled, hr, hp, hw]
  · have hr2 : ¬ (timeout > 0 ∧ timeout ≤ 20) := hr
    have hr3 : ¬ (0 < timeout ∧ timeout ≤ 20 ∧ s.isPumpRunning = false ∧
        s.isThereWater = true) := fun h => hr ⟨h.1, h.2.1⟩
    simp only [handlePumpOn, if_neg hr2, if_neg hr3, if_pos hr]

/-- C7: `handlePumpOn` switches the pump on and arms the one-shot with
`timeout * 1000` ms exactly when `0 < timeout ≤ 20`, the pump is not running
and the water flag is set; in every other case the state (pump flag, pin and
pending one-shot included) is left as it was and the only response is one of
the three failure bodies. -/
theorem handlePumpOn_spec (s : Controller) (timeout : Int) (now : Nat) :
    (handlePumpOn s timeout now).1 =
      (if 0 < timeout ∧ timeout ≤ 20 ∧ s.isPumpRunning = false ∧ s.isThereWater = true then
        { s with
          isPumpRunning := true
          pumpPinHigh := false
          pumpPinWrittenAt := now
          ticker := some { armedAt := now, delayMs := (timeout * 1000).toNat } }
      else s) ∧
    (¬ (0 < timeout ∧ timeout ≤ 20 ∧ s.isPumpRunning = false ∧ s.isThereWater = true) →
      (handlePumpOn s timeout now).2 =
        [{ code := 200,
           body := if ¬ (0 < timeout ∧ timeout ≤ 20) then bodyInvalidParams
                   else if s.isThereWater = false then bodyNoWater
                   else bodyAlreadyRunning }]) :=
  ⟨handlePumpOn_state s timeout now,
    fun hc => by rw [handlePumpOn_responses, if_neg hc]⟩

/-- Witness for `handlePumpOn_spec`: a request for 25 seconds after `setup`
found water. -/
theorem handlePumpOn_spec_witness :
    (handlePumpOn (setup 600 0) 25 7).1 = setup 600 0 ∧
      (handlePumpOn (setup 600 0) 25 7).2 = [{ code := 200, body := bodyInvalidParams }] := by
  have h := handlePumpOn_spec (setup 600 0) 25 7
  have hc : ¬ ((0 : Int) < 25 ∧ (25 : Int) ≤ 20 ∧ (setup 600 0).isPumpRunning = false ∧
      (setup 600 0).isThereWater = true) := by decide
  refine ⟨?_, ?_⟩
  · rw [h.1, if_neg hc]
  · rw [h.2 hc]
    simp

/-- C9, at the failing input: the pump is off, water is present and
`/pump/on?timeout=10` arrives.  The request starts the pump, and
`server.send` is called twice: first with the success body, then, because the
second `if` is not attached to the first by an `else`, with the body saying
that the pump is already running. -/
theorem handlePumpOn_success_sends_two_bodies :
    (handlePumpOn (setup 600 0) 10 7).1.isPumpRunning = true ∧
      (handlePumpOn (setup 600 0) 10 7).2 =
        [{ code := 200, body := bodySuccess }, { code := 200, body := bodyAlreadyRunning }] := by
  refine ⟨by decide, by decide⟩

/-! ## The water interlock -/

theorem waterCheck_dry (s : Controller) (analog : Int) (now millisAfter : Nat)
    (hdry : isWaterDetected analog = false)
    (h : s.isPumpRunning = true ∨ (s.pumpPinHigh = true ∧ s.ticker = none)) :
    (waterCheck s analog now millisAfter).isPumpRunning = false ∧
      (waterCheck s analog now millisAfter).pumpPinHigh = true ∧
      (waterCheck s analog now millisAfter).ticker = none := by
  cases hp : s.isPumpRunning
  · have ht : s.pumpPinHigh = true ∧ s.ticker = none := by
      rcases h with h | h
      · rw [hp] at h; cases h
      · exact h
    simp [waterCheck, hdry, hp, ht.1, ht.2]
  · simp [waterCheck, hdry, hp, abortWatering, setPumpEnabled]

theorem handleClient_running_or_idle (s : Controller) (req : Option Request) (now : Nat)
    (h : s.isPumpRunning = true ∨ (s.pumpPinHigh = true ∧ s.ticker = none)) :
    (handleClient s req now).1.isPumpRunning = true ∨
      ((handleClient s req now).1.pumpPinHigh = true ∧
        (handleClient s req now).1.ticker = none) := by
  match req with
  | none => exact h
  | some Request.root => exact h
  | some (Request.notFound _) => exact h
  | some Request.pumpOff => right; exact ⟨rfl, rfl⟩
  | some (Request.pumpOn timeout) =>
    show (handlePumpOn s timeout now).1.isPumpRunning = true ∨
      ((handlePumpOn s timeout now).1.pumpPinHigh = true ∧
        (handlePumpOn s timeout now).1.ticker = none)
    rw [handlePumpOn_state s timeout now]
    split_ifs
    · left; rfl
    · exact h

theorem handleClient_lastWaterCheck (s : Controller) (req : Option Request) (now : Nat) :
    (handleClient s req now).1.lastWaterCheck = s.lastWaterCheck := by
  match req with
  | none => rfl
  | some Request.root => rfl
  | some (Request.notFound _) => rfl
  | some Request.pumpOff => rfl
  | some (Request.pumpOn timeout) =>
    show (handlePumpOn s timeout now).1.lastWaterCheck = s.lastWaterCheck
    rw [handlePumpOn_state s timeout now]
    split_ifs <;> rfl

/-- C8: whenever the pump is running, with whatever one-shot pending, a `loop`
iteration whose periodic water check is due and samples "no water" ends with
the pump flag cleared, the pump pin driven `HIGH` (off) and no one-shot
pending, whatever request or update start is handled earlier in the same
iteration and however much of the requested duration remains. -/
theorem dry_check_stops_pump (s : Controller) (inp : LoopInput)
    (hrun : s.isPumpRunning = true) (hwifi : inp.wifiConnected = true)
    (hdue : (s.lastWaterCheck + WATER_CHECK_INTERVAL_MS) % 2 ^ 32 ≤ inp.now % 2 ^ 32)
    (hdry : isWaterDetected inp.analog = false) :
    (loop s inp).1.isPumpRunning = false ∧ (loop s inp).1.pumpPinHigh = true ∧
      (loop s inp).1.ticker = none := by
  have h1 : (if inp.otaStart = true then abortWatering s inp.now else s).isPumpRunning = true
      ∨ ((if inp.otaStart = true then abortWatering s inp.now else s).pumpPinHigh = true ∧
        (if inp.otaStart = true then abortWatering s inp.now else s).ticker = none) := by
    split_ifs
    · right; exact ⟨rfl, rfl⟩
    · left; exact hrun
  have h1c : (if inp.otaStart = true then abortWatering s inp.now else s).lastWaterCheck
      = s.lastWaterCheck := by
    split_ifs <;> rfl
  have h2 := handleClient_running_or_idle _ inp.request inp.now h1
  have h2c := handleClient_lastWaterCheck
    (if inp.otaStart = true then abortWatering s inp.now else s) inp.request inp.now
  rw [h1c] at h2c
  have hl : (loop s inp).1 = waterCheck
      (handleClient (if inp.otaStart = true then abortWatering s inp.now else s)
        inp.request inp.now).1 inp.analog inp.now inp.millisAfter := by
    simp only [loop, hwifi, Bool.true_eq_false, if_false, h2c, if_pos hdue]
  rw [hl]
  exact waterCheck_dry _ _ _ _ hdry h2

/-- Witness for `dry_check_stops_pump`: the pump was started for 20 seconds
five milliseconds after `setup`; five seconds later the check is due and the
sensor reads 100. -/
theorem dry_check_stops_pump_witness :
    (loop (handlePumpOn (setup 600 0) 20 5).1
        { wifiConnected := true, otaStart := false, request := none, now := 5000,
          analog := 100, millisAfter := 5200 }).1.isPumpRunning = false ∧
      (loop (handlePumpOn (setup 600 0) 20 5).1
        { wifiConnected := true, otaStart := false, request := none, now := 5000,
          analog := 100, millisAfter := 5200 }).1.pumpPinHigh = true ∧
      (loop (handlePumpOn (setup 600 0) 20 5).1
        { wifiConnected := true, otaStart := false, request := none, now := 5000,
          analog := 100, millisAfter := 5200 }).1.ticker = none :=
  dry_check_stops_pump (handlePumpOn (setup 600 0) 20 5).1
    { wifiConnected := true, otaStart := false, request := none, now := 5000,
      analog := 100, millisAfter := 5200 }
    (by decide) (by decide) (by decide) (by decide)

/-! ## The safety invariant -/

theorem safe_of_not_running (s : Controller) (h : s.isPumpRunning = false) : Safe s := by
  intro hr; rw [h] at hr; cases hr

theorem safe_handlePumpOn (s : Controller) (timeout : Int) (now : Nat) (hs : Safe s) :
    Safe (handlePumpOn s timeout now).1 := by
  rw [handlePumpOn_state s timeout now]
  split_ifs with hc
  · intro _
    refine ⟨hc.2.2.2, (timeout * 1000).toNat, rfl, ?_⟩
    have := hc.1
    have := hc.2.1
    omega
  · exact hs

theorem safe_waterCheck (s : Controller) (analog : Int) (now millisAfter : Nat)
    (hs : Safe s) : Safe (waterCheck s analog now millisAfter) := by
  cases hw : isWaterDetected analog
  · cases hp : s.isPumpRunning
    · apply safe_of_not_running
      simp [waterCheck, hw, hp]
    · apply safe_of_not_running
      simp [waterCheck, hw, hp, abortWatering, setPumpEnabled]
  · intro hr
    have hr2 : s.isPumpRunning = true := by
      simpa [waterCheck, hw] using hr
    obtain ⟨_, d, hd, hle⟩ := hs hr2
    refine ⟨by simp [waterCheck, hw], d, ?_, hle⟩
    simpa [waterCheck, hw] using hd

theorem safe_tickerFires (s : Controller) (now : Nat) (hs : Safe s) :
    Safe (tickerFires s now) := by
  unfold tickerFires
  cases ht : s.ticker with
  | none => exact hs
  | some p => exact safe_of_not_running _ rfl

theorem safe_handleClient (s : Controller) (req : Option Request) (now : Nat)
    (hs : Safe s) : Safe (handleClient s req now).1 := by
  match req with
  | none => exact hs
  | some Request.root => exact hs
  | some (Request.notFound _) => exact hs
  | some Request.pumpOff => exact safe_of_not_running _ rfl
  | some (Request.pumpOn timeout) => exact safe_handlePumpOn s timeout now hs

theorem safe_loop (s : Controller) (inp : LoopInput) (hs : Safe s) : Safe (loop s inp).1 := by
  have h1 : Safe (if inp.otaStart = true then abortWatering s inp.now else s) := by
    by_cases hota : inp.otaStart = true
    · rw [if_pos hota]; exact safe_of_not_running _ rfl
    · rw [if_neg hota]; exact hs
  have h2 := safe_handleClient _ inp.request inp.now h1
  by_cases hwifi : inp.wifiConnected = false
  · simp only [loop, if_pos hwifi]
    exact safe_of_not_running _ rfl
  · by_cases hdue :
        ((handleClient (if inp.otaStart = true then abortWatering s inp.now else s)
          inp.request inp.now).1.lastWaterCheck + WATER_CHECK_INTERVAL_MS) % 2 ^ 32
          ≤ inp.now % 2 ^ 32
    · simp only [loop, if_neg hwifi, if_pos hdue]
      exact safe_waterCheck _ _ _ _ h2
    · simp only [loop, if_neg hwifi, if_neg hdue]
      exact h2

theorem safe_step (s : Controller) (e : Event) (hs : Safe s) : Safe (step s e) := by
  cases e with
  | pumpOnRequest timeout now => exact safe_handlePumpOn s timeout now hs
  | pumpOffRequest now => exact safe_of_not_running _ rfl
  | periodicCheck analog now millisAfter => exact safe_waterCheck s analog now millisAfter hs
  | timerExpiry now => exact safe_tickerFires s now hs
  | wifiLost now => exact safe_of_not_running _ rfl
  | otaStart now => exact safe_of_not_running _ rfl
  | loopIteration inp => exact safe_loop s inp hs

theorem safe_runEvents (es : List Event) : ∀ s : Controller, Safe s → Safe (runEvents s es) := by
  induction es with
  | nil => intro s hs; exact hs
  | cons e es ih => intro s hs; exact ih _ (safe_step s e hs)

/-- C10: in every state reached from `setup` by any sequence of pump-on
requests, pump-off requests, periodic water checks, timer expiries, WiFi-loss
handling, update starts and whole `loop` iterations, a set pump-running flag
comes with a set water flag and with a pending one-shot that was armed at the
moment the pump pin was last driven, with a delay of at most 20000 ms. -/
theorem running_implies_water_and_bounded_timer (analog : Int) (now : Nat)
    (es : List Event) :
    (runEvents (setup analog now) es).isPumpRunning = true →
      (runEvents (setup analog now) es).isThereWater = true ∧
      ∃ d, (runEvents (setup analog now) es).ticker
            = some { armedAt := (runEvents (setup analog now) es).pumpPinWrittenAt,
                     delayMs := d } ∧ d ≤ 20000 :=
  safe_runEvents es (setup analog now) (safe_of_not_running _ rfl)

/-- Witness for `running_implies_water_and_bounded_timer`: `setup` finds
water, a request for 20 seconds starts the pump, a later check still finds
water. -/
theorem running_implies_water_and_bounded_timer_witness :
    (runEvents (setup 600 0)
        [Event.pumpOnRequest 20 5, Event.periodicCheck 700 5000 5200]).isPumpRunning = true ∧
      (runEvents (setup 600 0)
        [Event.pumpOnRequest 20 5, Event.periodicCheck 700 5000 5200]).isThereWater = true ∧
      ∃ d, (runEvents (setup 600 0)
          [Event.pumpOnRequest 20 5, Event.periodicCheck 700 5000 5200]).ticker
            = some { armedAt := (runEvents (setup 600 0)
                        [Event.pumpOnRequest 20 5,
                          Event.periodicCheck 700 5000 5200]).pumpPinWrittenAt,
                     delayMs := d } ∧ d ≤ 20000 :=
  ⟨by decide,
    running_implies_water_and_bounded_timer 600 0
      [Event.pumpOnRequest 20 5, Event.periodicCheck 700 5000 5200] (by decide)⟩

end WaterSystem
